import Mathlib

/-!
Verification of the video-player control surface in
`src/Components/VideoPlayer.tsx` (repository `react-experiments`).

The component is a thin synchronization layer between a browser media
element and a React state snapshot:

* pure helpers `clamp` and `formatTime`;
* a Playback State Mirror: five event handlers (`loadedmetadata`,
  `timeupdate`, `play`, `pause`, `volumechange`) that each merge one or two
  fields of the element into the `PlayerState` snapshot, subscribed in a
  `useEffect` and unsubscribed in its cleanup;
* a Command Surface: `togglePlay`, `seekTo`, `toggleMute`, `setVolume`,
  `fullscreen`, each a no-op when the `videoRef` is not attached.

JavaScript numbers are modelled by `JSNum`: a rational for the finite
doubles plus the three non-finite values (negative zero, which none of the
verified properties distinguish, is identified with zero).  The media
element itself is host-platform code; it is modelled by `Elem` together
with the platform's setter contract (see `elemSetVolume`,
`elemSetCurrentTime`): per Web IDL, assigning a non-finite value to the
`double` attributes `volume` / `currentTime` is rejected with a
`TypeError`, and per the HTML media-element specification, assigning a
finite `volume` outside `[0, 1]` is rejected with an `IndexSizeError`;
notifications fired by the element are delivered as separate steps
(browsers queue `volumechange` / `timeupdate` / `play` / `pause` tasks
rather than firing them synchronously inside the setter).
-/

namespace VideoPlayer

/-- A JavaScript `number`: NaN, the two infinities, or a finite value
(modelled as a rational). -/
inductive JSNum where
  | nan : JSNum
  | posInf : JSNum
  | negInf : JSNum
  | fin (q : ℚ) : JSNum
deriving DecidableEq, Repr

/-- The JavaScript `<` comparison: false whenever either operand is NaN. -/
def jsLt : JSNum → JSNum → Bool
  | .nan, _ => false
  | _, .nan => false
  | .negInf, .negInf => false
  | .negInf, _ => true
  | _, .negInf => false
  | .posInf, _ => false
  | .fin _, .posInf => true
  | .fin p, .fin q => decide (p < q)

/-- The JavaScript `<=` comparison: false whenever either operand is NaN. -/
def jsLe (a b : JSNum) : Bool :=
  match a, b with
  | .nan, _ => false
  | _, .nan => false
  | _, _ => !(jsLt b a)

/-- `Math.max` restricted to two arguments: NaN-propagating maximum. -/
def jsMax (a b : JSNum) : JSNum :=
  match a, b with
  | .nan, _ => .nan
  | _, .nan => .nan
  | _, _ => if jsLt a b then b else a

/-- `Math.min` restricted to two arguments: NaN-propagating minimum. -/
def jsMin (a b : JSNum) : JSNum :=
  match a, b with
  | .nan, _ => .nan
  | _, .nan => .nan
  | _, _ => if jsLt a b then a else b

/-- `Number.isFinite`. -/
def jsIsFinite : JSNum → Bool
  | .fin _ => true
  | _ => false

/-- JavaScript truthiness of a number: NaN and zero are falsy. -/
def jsTruthy : JSNum → Bool
  | .nan => false
  | .fin q => decide (q ≠ 0)
  | _ => true

/-- The idiom `x || 0` from the event handlers: NaN and zero become `0`,
everything else passes through. -/
def jsOrZero (x : JSNum) : JSNum :=
  if jsTruthy x then x else .fin 0

/-- `clamp` from `VideoPlayer.tsx` (lines 19-21):
`Math.min(Math.max(n, min), max)`. -/
def clamp (n lo hi : JSNum) : JSNum :=
  jsMin (jsMax n lo) hi

/-- `String.prototype.padStart` with a single pad character, as used by
`String(r).padStart(2, "0")`. -/
def padStart (target : Nat) (c : Char) (s : String) : String :=
  if target ≤ s.length then s
  else String.mk (List.replicate (target - s.length) c) ++ s

/-- `formatTime` from `VideoPlayer.tsx` (lines 23-29): non-finite or
negative inputs render as `"0:00"`; otherwise minutes (unbounded) and
seconds (zero-padded to two digits), separated by `":"`. -/
def formatTime (seconds : JSNum) : String :=
  match seconds with
  | .fin q =>
    if q < 0 then "0:00"
    else
      let s : Nat := (Rat.floor q).toNat
      let m : Nat := s / 60
      let r : Nat := s % 60
      toString m ++ ":" ++ padStart 2 '0' (toString r)
  | _ => "0:00"

/-- The observable state of the host platform's media element
(`HTMLVideoElement`): the fields this component reads and writes.
`duration` is NaN while the metadata is not yet loaded (and may be
`posInf` for an unbounded stream). -/
structure Elem where
  paused : Bool
  currentTime : JSNum
  duration : JSNum
  muted : Bool
  volume : JSNum
deriving DecidableEq, Repr

/-- `PlayerState` from `VideoPlayer.tsx` (lines 3-9): the snapshot
published to the overlay widgets. -/
structure PlayerState where
  playing : Bool
  current : JSNum
  duration : JSNum
  muted : Bool
  volume : JSNum
deriving DecidableEq, Repr

/-- The initial `useState` value (lines 49-55). -/
def initialPlayerState : PlayerState :=
  { playing := false
    current := .fin 0
    duration := .fin 0
    muted := false
    volume := .fin 1 }

/-- The whole system: the (possibly absent) media element behind
`videoRef`, the last-published snapshot, whether the Mirror's event
listeners are currently attached, and whether `document.fullscreenElement`
is set. -/
structure Sys where
  elem : Option Elem
  snap : PlayerState
  subscribed : Bool
  fullscreenElement : Bool
deriving DecidableEq, Repr

/-- The five notification kinds the Mirror subscribes to. -/
inductive Ev where
  | loadedmetadata : Ev
  | timeupdate : Ev
  | play : Ev
  | pause : Ev
  | volumechange : Ev
deriving DecidableEq, Repr

/-- Handler `onLoadedMetadata` (lines 61-62):
`setState s => { ...s, duration: v.duration || 0 }`. -/
def onLoadedMetadata (v : Elem) (s : PlayerState) : PlayerState :=
  { s with duration := jsOrZero v.duration }

/-- Handler `onTimeUpdate` (lines 63-64):
`setState s => { ...s, current: v.currentTime || 0 }`. -/
def onTimeUpdate (v : Elem) (s : PlayerState) : PlayerState :=
  { s with current := jsOrZero v.currentTime }

/-- Handler `onPlay` (line 65). -/
def onPlay (s : PlayerState) : PlayerState :=
  { s with playing := true }

/-- Handler `onPause` (line 66). -/
def onPause (s : PlayerState) : PlayerState :=
  { s with playing := false }

/-- Handler `onVolume` (lines 67-68):
`setState s => { ...s, volume: v.volume, muted: v.muted }`. -/
def onVolume (v : Elem) (s : PlayerState) : PlayerState :=
  { s with volume := v.volume, muted := v.muted }

/-- Delivery of a notification to the Mirror.  After the `useEffect`
cleanup has run (`subscribed = false`) the listeners are removed, so the
notification reaches no handler and the snapshot is untouched. -/
def notify (ev : Ev) (s : Sys) : Sys :=
  if s.subscribed then
    match s.elem with
    | none => s
    | some v =>
      { s with
        snap :=
          match ev with
          | .loadedmetadata => onLoadedMetadata v s.snap
          | .timeupdate => onTimeUpdate v s.snap
          | .play => onPlay s.snap
          | .pause => onPause s.snap
          | .volumechange => onVolume v s.snap }
  else s

/-- The `useEffect` cleanup (lines 82-88): removes all five listeners. -/
def detach (s : Sys) : Sys :=
  { s with subscribed := false }

/-- Model of the host platform's `volume` setter: a non-finite value is
rejected by the Web IDL `double` conversion (`TypeError`), a finite value
outside `[0, 1]` is rejected with an `IndexSizeError`, and an in-range
value is stored (the element later fires a `volumechange` notification,
delivered via `notify`). -/
def elemSetVolume (v : Elem) (x : JSNum) : Except Unit Elem :=
  match x with
  | .fin q => if 0 ≤ q ∧ q ≤ 1 then .ok { v with volume := .fin q } else .error ()
  | _ => .error ()

/-- Model of the host platform's `currentTime` setter: a non-finite value
is rejected by the Web IDL `double` conversion (`TypeError`); a finite
value is stored (the component only ever supplies values it has already
clamped to the seekable range, so the element's own clamping is the
identity here). -/
def elemSetCurrentTime (v : Elem) (x : JSNum) : Except Unit Elem :=
  match x with
  | .fin q => .ok { v with currentTime := .fin q }
  | _ => .error ()

/-- Command `togglePlay` (lines 93-102).  `accepted` is the platform's
choice on the asynchronous `play()` request: when the request is rejected
(autoplay policy etc.) the rejection is caught and logged, the element
stays paused, and no `play` notification is fired. -/
def togglePlay (accepted : Bool) (s : Sys) : Except Unit Sys :=
  match s.elem with
  | none => .ok s
  | some v =>
    if v.paused then
      if accepted then .ok { s with elem := some { v with paused := false } }
      else .ok s
    else .ok { s with elem := some { v with paused := true } }

/-- Command `seekTo` (lines 103-108):
`clamp(t, 0, Number.isFinite(v.duration) ? v.duration : 0)` assigned to
`v.currentTime`. -/
def seekTo (t : JSNum) (s : Sys) : Except Unit Sys :=
  match s.elem with
  | none => .ok s
  | some v =>
    match elemSetCurrentTime v
        (clamp t (.fin 0) (if jsIsFinite v.duration then v.duration else .fin 0)) with
    | .ok v2 => .ok { s with elem := some v2 }
    | .error e => .error e

/-- Command `toggleMute` (lines 109-113): `v.muted = !v.muted`. -/
def toggleMute (s : Sys) : Except Unit Sys :=
  match s.elem with
  | none => .ok s
  | some v => .ok { s with elem := some { v with muted := !v.muted } }

/-- Command `setVolume` (lines 114-119): `v.volume = clamp(vol, 0, 1)`,
then `if (v.volume > 0) v.muted = false`, the test reading back the value
just stored. -/
def setVolume (vol : JSNum) (s : Sys) : Except Unit Sys :=
  match s.elem with
  | none => .ok s
  | some v =>
    match elemSetVolume v (clamp vol (.fin 0) (.fin 1)) with
    | .ok v2 =>
      .ok { s with
        elem := some (if jsLt (.fin 0) v2.volume then { v2 with muted := false } else v2) }
    | .error e => .error e

/-- Command `fullscreen` (lines 120-129).  `accepted` is the platform's
choice on the asynchronous request; a rejection is caught and logged and
changes nothing. -/
def fullscreen (accepted : Bool) (s : Sys) : Except Unit Sys :=
  match s.elem with
  | none => .ok s
  | some _ =>
    if s.fullscreenElement then
      if accepted then .ok { s with fullscreenElement := false } else .ok s
    else
      if accepted then .ok { s with fullscreenElement := true } else .ok s

/-- One step of the closed system: a Command Surface invocation (with the
platform's accept/reject choice where the platform has one), the delivery
of a queued notification, or the Mirror's detachment.  A command that the
platform rejects with a thrown exception (`Except.error`) leaves the
state as it was at the throw site, which for these commands is the state
before the command. -/
inductive Op where
  | togglePlay (accepted : Bool) : Op
  | seekTo (t : JSNum) : Op
  | toggleMute : Op
  | setVolume (x : JSNum) : Op
  | fullscreen (accepted : Bool) : Op
  | fire (ev : Ev) : Op
  | detach : Op
deriving DecidableEq, Repr

/-- Result of a possibly-throwing command: the new state on normal
completion, the unchanged state when the command threw. -/
def afterCmd (r : Except Unit Sys) (s : Sys) : Sys :=
  match r with
  | .ok s2 => s2
  | .error _ => s

/-- The transition function of the closed system. -/
def step (op : Op) (s : Sys) : Sys :=
  match op with
  | .togglePlay a => afterCmd (togglePlay a s) s
  | .seekTo t => afterCmd (seekTo t s) s
  | .toggleMute => afterCmd (toggleMute s) s
  | .setVolume x => afterCmd (setVolume x s) s
  | .fullscreen a => afterCmd (fullscreen a s) s
  | .fire ev => notify ev s
  | .detach => detach s

/-- Run a sequence of operations. -/
def run (ops : List Op) (s : Sys) : Sys :=
  ops.foldl (fun s op => step op s) s

/-- A freshly created video element, before any metadata has loaded: the
platform defaults are `paused`, time `0`, duration NaN (unknown), not
muted, volume `1`. -/
def initElem : Elem :=
  { paused := true
    currentTime := .fin 0
    duration := .nan
    muted := false
    volume := .fin 1 }

/-- The initial snapshot read taken by the `useEffect` on attachment
(lines 77-80): `onLoadedMetadata(); onTimeUpdate(); onVolume();` then
`setState(s => ({ ...s, playing: !v.paused }))`. -/
def initSnapshot (v : Elem) (s : PlayerState) : PlayerState :=
  { onVolume v (onTimeUpdate v (onLoadedMetadata v s)) with playing := !v.paused }

/-- The system right after mount: element attached, listeners subscribed,
initial snapshot taken. -/
def initSys : Sys :=
  { elem := some initElem
    snap := initSnapshot initElem initialPlayerState
    subscribed := true
    fullscreenElement := false }

/-! ### Helper lemmas -/

theorem ratFloor_eq_intFloor (q : ℚ) : Rat.floor q = ⌊q⌋ := by
  rw [Rat.floor_def', Rat.floor_def]

/-- `clamp` into `[0,1]` of a non-NaN value is a rational in `[0,1]`,
positive whenever the input is positive. -/
theorem clamp01_spec (vol : JSNum) (h : vol ≠ .nan) :
    ∃ q : ℚ, clamp vol (.fin 0) (.fin 1) = .fin q ∧ 0 ≤ q ∧ q ≤ 1 ∧
      (jsLt (.fin 0) vol = true → 0 < q) := by
  cases vol with
  | nan => exact absurd rfl h
  | posInf => exact ⟨1, by decide, by norm_num, le_refl 1, fun _ => by norm_num⟩
  | negInf => exact ⟨0, by decide, le_refl 0, by norm_num, by decide⟩
  | fin q =>
    by_cases h0 : q < 0
    · refine ⟨0, ?_, le_refl 0, by norm_num, ?_⟩
      · simp [clamp, jsMax, jsMin, jsLt, h0]
      · intro hlt
        simp only [jsLt, decide_eq_true_eq] at hlt
        exact absurd (lt_trans hlt h0) (lt_irrefl 0)
    · by_cases h1 : q < 1
      · refine ⟨q, ?_, not_lt.mp h0, le_of_lt h1, ?_⟩
        · simp [clamp, jsMax, jsMin, jsLt, h0, h1]
        · intro hlt
          simpa [jsLt] using hlt
      · refine ⟨1, ?_, by norm_num, le_refl 1, fun _ => by norm_num⟩
        simp [clamp, jsMax, jsMin, jsLt, h0, h1]

/-- `clamp` of a non-NaN value into a finite interval is finite. -/
theorem clamp_fin_exists (t : JSNum) (h : t ≠ .nan) (d : ℚ) :
    ∃ q : ℚ, clamp t (.fin 0) (.fin d) = .fin q := by
  cases t with
  | nan => exact absurd rfl h
  | posInf => exact ⟨d, by simp [clamp, jsMax, jsMin, jsLt]⟩
  | negInf =>
    by_cases hd : (0 : ℚ) < d
    · exact ⟨0, by simp [clamp, jsMax, jsMin, jsLt, hd]⟩
    · exact ⟨d, by simp [clamp, jsMax, jsMin, jsLt, hd]⟩
  | fin p =>
    by_cases h0 : p < 0
    · by_cases hd : (0 : ℚ) < d
      · exact ⟨0, by simp [clamp, jsMax, jsMin, jsLt, h0, hd]⟩
      · exact ⟨d, by simp [clamp, jsMax, jsMin, jsLt, h0, hd]⟩
    · by_cases hd : p < d
      · exact ⟨p, by simp [clamp, jsMax, jsMin, jsLt, h0, hd]⟩
      · exact ⟨d, by simp [clamp, jsMax, jsMin, jsLt, h0, hd]⟩

/-- `clamp` of a non-NaN value into the degenerate interval `[0, 0]`. -/
theorem clamp_zero_zero (t : JSNum) (h : t ≠ .nan) :
    clamp t (.fin 0) (.fin 0) = .fin 0 := by
  cases t with
  | nan => exact absurd rfl h
  | posInf => decide
  | negInf => decide
  | fin p => by_cases h0 : p < 0 <;> simp [clamp, jsMax, jsMin, jsLt, h0]

/-! ### Claim theorems -/

/-- C5: `formatTime` renders seconds as `minutes:seconds` with zero-padded
seconds and returns `"0:00"` for every non-finite or negative input; in
particular `formatTime 75 = "1:15"`, `formatTime 0 = "0:00"`,
`formatTime (-3) = "0:00"` and `formatTime NaN = "0:00"`. -/
theorem c5_formatTime_display_contract (x : JSNum)
    (h : jsIsFinite x = false ∨ jsLt x (.fin 0) = true) :
    formatTime x = "0:00" ∧
    formatTime (.fin 75) = "1:15" ∧ formatTime (.fin 0) = "0:00" ∧
    formatTime (.fin (-3)) = "0:00" ∧ formatTime .nan = "0:00" := by
  refine ⟨?_, by decide, by decide, by decide, by decide⟩
  cases x with
  | nan => rfl
  | posInf => rfl
  | negInf => rfl
  | fin q =>
    rcases h with h | h
    · simp [jsIsFinite] at h
    · have hq : q < 0 := by simpa [jsLt] using h
      simp [formatTime, hq]

/-- Witness for C5 at the concrete non-finite input NaN. -/
theorem c5_formatTime_display_contract_witness :
    formatTime .nan = "0:00" ∧
    formatTime (.fin 75) = "1:15" ∧ formatTime (.fin 0) = "0:00" ∧
    formatTime (.fin (-3)) = "0:00" ∧ formatTime .nan = "0:00" :=
  c5_formatTime_display_contract .nan (Or.inl (by decide))

/-- C10: `formatTime` never rolls minutes into hours: for a finite
non-negative input the minutes figure is the unbounded quotient
`⌊s⌋ / 60` (equal to `⌊s / 60⌋`, not reduced modulo 60), followed by `":"`
and `⌊s⌋ % 60` zero-padded to two digits; in particular
`formatTime 3600 = "60:00"`. -/
theorem c10_formatTime_minutes_unbounded (q : ℚ) (h : 0 ≤ q) :
    formatTime (.fin q) =
      toString ((Rat.floor q).toNat / 60) ++ ":" ++
        padStart 2 '0' (toString ((Rat.floor q).toNat % 60)) ∧
    (Rat.floor q).toNat / 60 = (Rat.floor (q / 60)).toNat ∧
    formatTime (.fin 3600) = "60:00" := by
  refine ⟨by simp [formatTime, not_lt.mpr h], ?_, by decide⟩
  rw [ratFloor_eq_intFloor, ratFloor_eq_intFloor, Int.floor_toNat, Int.floor_toNat]
  have h60 : ((60 : ℕ) : ℚ) = (60 : ℚ) := by norm_num
  rw [← h60, Nat.floor_div_nat q 60]

/-- Witness for C10 at the concrete input 3600. -/
theorem c10_formatTime_minutes_unbounded_witness :
    0 ≤ (3600 : ℚ) ∧
      (formatTime (.fin 3600) =
        toString ((Rat.floor 3600).toNat / 60) ++ ":" ++
          padStart 2 '0' (toString ((Rat.floor 3600).toNat % 60)) ∧
      (Rat.floor 3600).toNat / 60 = (Rat.floor (3600 / 60)).toNat ∧
      formatTime (.fin 3600) = "60:00") :=
  ⟨by norm_num, c10_formatTime_minutes_unbounded 3600 (by norm_num)⟩

/-- C4: `toggleMute` is an involution on the mute state of every attached
resource: one application flips the element's mute flag, a second
application restores it. -/
theorem c4_toggleMute_involution (v : Elem) (p : PlayerState) (sub fse : Bool) :
    (∃ v1 : Elem, (step .toggleMute ⟨some v, p, sub, fse⟩).elem = some v1 ∧
      v1.muted = !v.muted) ∧
    (∃ v2 : Elem, (step .toggleMute (step .toggleMute ⟨some v, p, sub, fse⟩)).elem = some v2 ∧
      v2.muted = v.muted) := by
  refine ⟨⟨{ v with muted := !v.muted }, rfl, rfl⟩,
    ⟨{ v with muted := !!v.muted }, rfl, ?_⟩⟩
  simp

/-- C6: every command invoked while the resource is not attached returns
normally (no exception) and leaves the whole system state — resource and
snapshot — unchanged, for every argument value. -/
theorem c6_commands_noop_when_unattached (p : PlayerState) (sub fse : Bool)
    (a b : Bool) (t x : JSNum) :
    togglePlay a ⟨none, p, sub, fse⟩ = .ok ⟨none, p, sub, fse⟩ ∧
    seekTo t ⟨none, p, sub, fse⟩ = .ok ⟨none, p, sub, fse⟩ ∧
    toggleMute ⟨none, p, sub, fse⟩ = .ok ⟨none, p, sub, fse⟩ ∧
    setVolume x ⟨none, p, sub, fse⟩ = .ok ⟨none, p, sub, fse⟩ ∧
    fullscreen b ⟨none, p, sub, fse⟩ = .ok ⟨none, p, sub, fse⟩ :=
  ⟨rfl, rfl, rfl, rfl, rfl⟩

/-- C7: when the platform rejects the `play()` request issued by
`togglePlay` on a paused element, the rejection is only caught and logged:
the command returns normally (`Except.ok`, nothing surfaced to the
caller), no retry happens, and the whole state — element still paused,
snapshot untouched — is unchanged. -/
theorem c7_play_rejection_leaves_state (v : Elem) (p : PlayerState) (sub fse : Bool)
    (h : v.paused = true) :
    togglePlay false ⟨some v, p, sub, fse⟩ = .ok ⟨some v, p, sub, fse⟩ := by
  simp [togglePlay, h]

/-- Witness for C7 at a concrete paused element. -/
theorem c7_play_rejection_leaves_state_witness :
    togglePlay false ⟨some initElem, initialPlayerState, true, false⟩ =
      .ok ⟨some initElem, initialPlayerState, true, false⟩ :=
  c7_play_rejection_leaves_state initElem initialPlayerState true false rfl

/-- C8: after the Mirror is detached (the `useEffect` cleanup removed the
listeners), no notification of any kind changes the system, in particular
the last-published snapshot is unchanged. -/
theorem c8_no_snapshot_update_after_detach (ev : Ev) (s : Sys) :
    notify ev (detach s) = detach s ∧ (notify ev (detach s)).snap = s.snap :=
  ⟨rfl, rfl⟩

/-- C9: each notification handler merges only its own field(s) into the
snapshot and leaves every other field unchanged: `loadedmetadata` only
`duration`, `timeupdate` only `current`, `play`/`pause` only `playing`,
`volumechange` only `volume` and `muted` — for every prior snapshot. -/
theorem c9_handlers_update_only_their_fields (v : Elem) (p : PlayerState) (fse : Bool) :
    ((notify .loadedmetadata ⟨some v, p, true, fse⟩).snap =
        { p with duration := jsOrZero v.duration }) ∧
    ((notify .timeupdate ⟨some v, p, true, fse⟩).snap =
        { p with current := jsOrZero v.currentTime }) ∧
    ((notify .play ⟨some v, p, true, fse⟩).snap = { p with playing := true }) ∧
    ((notify .pause ⟨some v, p, true, fse⟩).snap = { p with playing := false }) ∧
    ((notify .volumechange ⟨some v, p, true, fse⟩).snap =
        { p with volume := v.volume, muted := v.muted }) :=
  ⟨rfl, rfl, rfl, rfl, rfl⟩

/-- C2 (amended): for every non-NaN input `vol` and every attached
resource, `setVolume vol` completes normally and stores element volume
`clamp vol 0 1`, and whenever `vol > 0` the element's mute flag is false
afterwards regardless of its prior value.  (For a NaN input the clamp is
NaN and the platform's volume setter rejects the assignment, so nothing
is stored.) -/
theorem c2_setVolume_clamps_and_unmutes (vol : JSNum) (hvol : vol ≠ .nan)
    (v : Elem) (p : PlayerState) (sub fse : Bool) :
    ∃ v2 : Elem,
      setVolume vol ⟨some v, p, sub, fse⟩ = .ok ⟨some v2, p, sub, fse⟩ ∧
      v2.volume = clamp vol (.fin 0) (.fin 1) ∧
      (jsLt (.fin 0) vol = true → v2.muted = false) := by
  obtain ⟨q, hq, h0, h1, hpos⟩ := clamp01_spec vol hvol
  by_cases hq0 : 0 < q
  · refine ⟨{ v with volume := .fin q, muted := false }, ?_, by rw [hq], fun _ => rfl⟩
    simp [setVolume, hq, elemSetVolume, h0, h1, jsLt, hq0]
  · refine ⟨{ v with volume := .fin q }, ?_, by rw [hq], ?_⟩
    · simp [setVolume, hq, elemSetVolume, h0, h1, jsLt, hq0]
    · intro hlt
      exact absurd (hpos hlt) hq0

/-- Witness for C2 at the concrete input 2 on a muted element. -/
theorem c2_setVolume_clamps_and_unmutes_witness :
    ∃ v2 : Elem,
      setVolume (.fin 2) ⟨some { initElem with muted := true }, initialPlayerState, true, false⟩ =
        .ok ⟨some v2, initialPlayerState, true, false⟩ ∧
      v2.volume = clamp (.fin 2) (.fin 0) (.fin 1) ∧
      (jsLt (.fin 0) (.fin 2) = true → v2.muted = false) :=
  c2_setVolume_clamps_and_unmutes (.fin 2) (by decide) { initElem with muted := true }
    initialPlayerState true false

/-- C2 as literally stated (every input, NaN included) is false: at
`vol = NaN` on the freshly mounted system, the command throws in the
platform's volume setter and the element keeps volume 1, while
`clamp NaN 0 1 = NaN`. -/
theorem c2_counterexample :
    ¬ ∀ (vol : JSNum) (v : Elem) (p : PlayerState) (sub fse : Bool),
        ∃ v2 : Elem,
          (step (Op.setVolume vol) ⟨some v, p, sub, fse⟩).elem = some v2 ∧
          v2.volume = clamp vol (.fin 0) (.fin 1) ∧
          (jsLt (.fin 0) vol = true → v2.muted = false) := by
  intro h
  obtain ⟨v2, he, hv, -⟩ := h .nan initElem initialPlayerState true false
  have he2 : some initElem = some v2 := he
  injection he2 with he3
  rw [← he3] at hv
  exact absurd hv (by decide)

/-- C3 (amended): for every non-NaN seek target `t` and every attached
resource, `seekTo t` completes normally; when the duration is the known
finite value `d` the stored current time is `clamp t 0 d`, and when the
duration is unknown (non-finite) the stored current time is `0`.  (For a
NaN target the clamp is NaN and the platform's currentTime setter rejects
the assignment.) -/
theorem c3_seekTo_clamps (t : JSNum) (ht : t ≠ .nan)
    (v : Elem) (p : PlayerState) (sub fse : Bool) :
    (∀ d : ℚ, v.duration = .fin d →
      ∃ v2 : Elem, seekTo t ⟨some v, p, sub, fse⟩ = .ok ⟨some v2, p, sub, fse⟩ ∧
        v2.currentTime = clamp t (.fin 0) (.fin d)) ∧
    (jsIsFinite v.duration = false →
      ∃ v2 : Elem, seekTo t ⟨some v, p, sub, fse⟩ = .ok ⟨some v2, p, sub, fse⟩ ∧
        v2.currentTime = .fin 0) := by
  constructor
  · intro d hd
    obtain ⟨q, hq⟩ := clamp_fin_exists t ht d
    refine ⟨{ v with currentTime := .fin q }, ?_, by rw [hq]⟩
    simp [seekTo, hd, jsIsFinite, hq, elemSetCurrentTime]
  · intro hfin
    refine ⟨{ v with currentTime := .fin 0 }, ?_, rfl⟩
    simp [seekTo, hfin, clamp_zero_zero t ht, elemSetCurrentTime]

/-- Witness for C3 at the spec's scenario: duration 120, seek to 500,
clamped to 120 (and, for the second conjunct, a separate application to an
unknown-duration element would use the other branch; here the known-branch
hypothesis is discharged concretely). -/
theorem c3_seekTo_clamps_witness :
    ∃ v2 : Elem,
      seekTo (.fin 500)
          ⟨some { initElem with duration := .fin 120 }, initialPlayerState, true, false⟩ =
        .ok ⟨some v2, initialPlayerState, true, false⟩ ∧
      v2.currentTime = clamp (.fin 500) (.fin 0) (.fin 120) :=
  (c3_seekTo_clamps (.fin 500) (by decide) { initElem with duration := .fin 120 }
    initialPlayerState true false).1 120 rfl

/-- C3 as literally stated (every seek target, NaN included) is false: at
`t = NaN` with known duration 120, the command throws in the platform's
currentTime setter and the element keeps current time 0, while
`clamp NaN 0 120 = NaN`. -/
theorem c3_counterexample :
    ¬ ∀ (t : JSNum) (v : Elem) (p : PlayerState) (sub fse : Bool),
        (∀ d : ℚ, v.duration = .fin d →
          ∃ v2 : Elem, (step (Op.seekTo t) ⟨some v, p, sub, fse⟩).elem = some v2 ∧
            v2.currentTime = clamp t (.fin 0) (.fin d)) ∧
        (jsIsFinite v.duration = false →
          ∃ v2 : Elem, (step (Op.seekTo t) ⟨some v, p, sub, fse⟩).elem = some v2 ∧
            v2.currentTime = .fin 0) := by
  intro h
  obtain ⟨v2, he, hv⟩ :=
    (h .nan { initElem with duration := .fin 120 } initialPlayerState true false).1 120 rfl
  have he2 : some { initElem with duration := .fin 120 } = some v2 := he
  injection he2 with he3
  rw [← he3] at hv
  exact absurd hv (by decide)

/-- A volume value in range: finite and in `[0, 1]`. -/
def volOK (x : JSNum) : Prop := ∃ q : ℚ, x = .fin q ∧ 0 ≤ q ∧ q ≤ 1

/-- The volume invariant: the snapshot's volume, and the element's volume
whenever the element is attached, are finite values in `[0, 1]`. -/
def VolInv (s : Sys) : Prop :=
  volOK s.snap.volume ∧ ∀ v : Elem, s.elem = some v → volOK v.volume

theorem volOK_of_elemSetVolume {v : Elem} {x : JSNum} {v2 : Elem}
    (h : elemSetVolume v x = .ok v2) : volOK v2.volume := by
  cases x with
  | fin q =>
    simp only [elemSetVolume] at h
    split at h
    · injection h with h2
      rw [← h2]
      next hq => exact ⟨q, rfl, hq.1, hq.2⟩
    · exact Except.noConfusion h
  | nan => exact Except.noConfusion h
  | posInf => exact Except.noConfusion h
  | negInf => exact Except.noConfusion h

theorem volume_of_elemSetCurrentTime {v : Elem} {x : JSNum} {v2 : Elem}
    (h : elemSetCurrentTime v x = .ok v2) : v2.volume = v.volume := by
  cases x with
  | fin q =>
    simp only [elemSetCurrentTime] at h
    injection h with h2
    rw [← h2]
  | nan => exact Except.noConfusion h
  | posInf => exact Except.noConfusion h
  | negInf => exact Except.noConfusion h

theorem volInv_step (op : Op) (s : Sys) (h : VolInv s) : VolInv (step op s) := by
  obtain ⟨h1, h2⟩ := h
  cases op with
  | togglePlay a =>
    cases hse : s.elem with
    | none => simpa [step, afterCmd, togglePlay, hse] using ⟨h1, h2⟩
    | some v =>
      by_cases hp : v.paused = true <;> by_cases ha : a = true <;>
        simp only [step, afterCmd, togglePlay, hse, hp, ha, Bool.false_eq_true,
          if_true, if_false] <;>
        refine ⟨h1, fun v2 hv2 => ?_⟩ <;>
        first
          | (injection hv2 with hv3; rw [← hv3]; exact h2 v hse)
          | exact h2 v2 hv2
  | seekTo t =>
    cases hse : s.elem with
    | none => simpa [step, afterCmd, seekTo, hse] using ⟨h1, h2⟩
    | some v =>
      cases hr : elemSetCurrentTime v
          (clamp t (.fin 0) (if jsIsFinite v.duration then v.duration else .fin 0)) with
      | error e => simpa [step, afterCmd, seekTo, hse, hr] using ⟨h1, h2⟩
      | ok v2 =>
        simp only [step, afterCmd, seekTo, hse, hr]
        refine ⟨h1, fun v3 hv3 => ?_⟩
        injection hv3 with hv4
        rw [← hv4, volume_of_elemSetCurrentTime hr]
        exact h2 v hse
  | toggleMute =>
    cases hse : s.elem with
    | none => simpa [step, afterCmd, toggleMute, hse] using ⟨h1, h2⟩
    | some v =>
      simp only [step, afterCmd, toggleMute, hse]
      refine ⟨h1, fun v2 hv2 => ?_⟩
      injection hv2 with hv3
      rw [← hv3]
      exact h2 v hse
  | setVolume x =>
    cases hse : s.elem with
    | none => simpa [step, afterCmd, setVolume, hse] using ⟨h1, h2⟩
    | some v =>
      cases hr : elemSetVolume v (clamp x (.fin 0) (.fin 1)) with
      | error e => simpa [step, afterCmd, setVolume, hse, hr] using ⟨h1, h2⟩
      | ok v2 =>
        have hok : volOK v2.volume := volOK_of_elemSetVolume hr
        simp only [step, afterCmd, setVolume, hse, hr]
        refine ⟨h1, fun v3 hv3 => ?_⟩
        by_cases hlt : jsLt (.fin 0) v2.volume = true
        · rw [if_pos hlt] at hv3
          injection hv3 with hv4
          rw [← hv4]
          exact hok
        · rw [if_neg hlt] at hv3
          injection hv3 with hv4
          rw [← hv4]
          exact hok
  | fullscreen a =>
    cases hse : s.elem with
    | none => simpa [step, afterCmd, fullscreen, hse] using ⟨h1, h2⟩
    | some v =>
      by_cases hf : s.fullscreenElement = true <;> by_cases ha : a = true <;>
        simp only [step, afterCmd, fullscreen, hse, hf, ha, Bool.false_eq_true,
          if_true, if_false] <;>
        refine ⟨h1, fun v2 hv2 => ?_⟩ <;>
        first
          | (injection hv2 with hv3; rw [← hv3]; exact h2 v hse)
          | exact h2 v2 hv2
  | fire ev =>
    by_cases hsub : s.subscribed = true
    · cases hse : s.elem with
      | none => simpa [notify, step, hsub, hse] using ⟨h1, h2⟩
      | some v =>
        cases ev <;>
          simp only [step, notify, hsub, hse, if_true, onLoadedMetadata, onTimeUpdate,
            onPlay, onPause, onVolume] <;>
          refine ⟨?_, fun v2 hv2 => ?_⟩ <;>
          first
            | exact h1
            | exact h2 v hse
            | (injection hv2 with hv3; rw [← hv3]; exact h2 v hse)
    · simpa [step, notify, hsub] using ⟨h1, h2⟩
  | detach => exact ⟨h1, h2⟩

theorem volInv_run (ops : List Op) (s : Sys) (h : VolInv s) : VolInv (run ops s) := by
  induction ops generalizing s with
  | nil => exact h
  | cons op ops ih => exact ih (step op s) (volInv_step op s h)

theorem volInv_initSys : VolInv initSys := by
  refine ⟨⟨1, rfl, by norm_num, le_refl 1⟩, fun v hv => ?_⟩
  injection hv with hv2
  rw [← hv2]
  exact ⟨1, rfl, by norm_num, le_refl 1⟩

/-- C1: starting from the freshly mounted system (snapshot volume 1) and
for every sequence of operations — `setVolume` commands with arbitrary
arguments (non-finite values included), volume-change and every other
notification, the remaining commands, detachment — the snapshot's volume
field satisfies `0 <= volume <= 1` (in the JavaScript order, so in
particular it is never NaN). -/
theorem c1_snapshot_volume_invariant (ops : List Op) :
    jsLe (.fin 0) (run ops initSys).snap.volume = true ∧
    jsLe (run ops initSys).snap.volume (.fin 1) = true := by
  obtain ⟨⟨q, hq, hq0, hq1⟩, -⟩ := volInv_run ops initSys volInv_initSys
  rw [hq]
  constructor
  · simp [jsLe, jsLt, not_lt.mpr hq0]
  · simp [jsLe, jsLt, not_lt.mpr hq1]

end VideoPlayer
